import Mathlib

/-!
# Static web server: `cmd/webserver/main.go`

The program is one function, `main`.  It reads `WEB_PORT`, falls back to
`"8080"`, registers a file server rooted at `./web` on the pattern `/`,
logs three lines and calls `http.ListenAndServe(":"+port, nil)`; a non-nil
error from that call goes to `log.Fatal`.

`main` is embedded as a pure function from the outside world (the process
environment and what the listen call does) to the run it produces: the
sequence of library calls it makes, in order, and the way the process ends.
The Go standard library is not part of the program; the calls into it are
recorded as events, and the one result the program branches on (the error
value returned by `http.ListenAndServe`) is supplied by the world.
-/

namespace WebServer

/-! ## The outside world -/

/-- Process environment: the value of every variable, `none` when it is unset. -/
abbrev Environ := String → Option String

/-- Go `os.Getenv`: the value of the variable, the empty string when it is not
present. -/
def Getenv (env : Environ) (key : String) : String :=
  match env key with
  | some v => v
  | none => ""

/-- What one call `http.ListenAndServe(addr, nil)` does, seen from the caller.
A Go `error` is its message; the `nil` error is `none`. -/
inductive ListenOutcome where
  /-- The listener could not be bound: the call returns the error at once and
  no connection was ever accepted. -/
  | bindFailed (err : String)
  /-- The listener was bound and the accept loop never returns. -/
  | serving
  /-- The listener was bound and the accept loop ended: the call returns `err`. -/
  | stopped (err : Option String)
  deriving DecidableEq, Repr

/-- Value returned by the call: `none` when the call never returns, otherwise
the Go error (`some none` is a returned `nil`). -/
def ListenOutcome.returned : ListenOutcome → Option (Option String)
  | .bindFailed err => some (some err)
  | .serving => none
  | .stopped err => some err

/-- Whether the listener was bound, the only way a connection is accepted. -/
def ListenOutcome.bound : ListenOutcome → Bool
  | .bindFailed _ => false
  | .serving => true
  | .stopped _ => true

/-- Contract documented by `net/http`: `ListenAndServe` always returns a
non-nil error, so a returned `nil` does not occur. -/
def ListenOutcome.honoursContract (o : ListenOutcome) : Prop :=
  o.returned ≠ some none

instance (o : ListenOutcome) : Decidable o.honoursContract := by
  unfold ListenOutcome.honoursContract; infer_instance

/-- Everything `main` reads from outside: the environment, and the outcome of
a listen call on a given address. -/
structure World where
  environ : Environ
  listenAndServe : String → ListenOutcome

/-! ## Values and library calls -/

/-- Go `http.Dir`: a directory used as the root of a file system. -/
structure Dir where
  root : String
  deriving DecidableEq, Repr

/-- HTTP handlers the program builds. -/
inductive Handler where
  /-- Go `http.FileServer(root)`. -/
  | FileServer (root : Dir)
  deriving DecidableEq, Repr

/-- Calls into the standard library, as recorded in a run. -/
inductive Event where
  /-- Go `http.Handle(pattern, handler)`: registration in the default mux. -/
  | Handle (pattern : String) (handler : Handler)
  /-- Go `log.Printf`: the formatted message handed to the standard logger. -/
  | Printf (msg : String)
  /-- Go `http.ListenAndServe(addr, handler)`, plain HTTP, with what the call
  did; a `nil` handler (the default mux) is `none`. -/
  | ListenAndServe (addr : String) (handler : Option Handler) (outcome : ListenOutcome)
  /-- Go `http.ListenAndServeTLS(addr, certFile, keyFile, handler)`. -/
  | ListenAndServeTLS (addr certFile keyFile : String) (handler : Option Handler)
      (outcome : ListenOutcome)
  /-- Go `log.Fatal(err)`: prints the error, then calls `os.Exit(1)`. -/
  | Fatal (err : String)
  deriving DecidableEq, Repr

/-- How the process stands once `main` can do nothing more. -/
inductive Status where
  /-- Blocked inside the listen call for ever; only an external kill ends it. -/
  | serving
  /-- The process ended by itself with this exit status. -/
  | exited (code : Nat)
  deriving DecidableEq, Repr

/-- A run of the program: the calls it made, in order, and how it stands. -/
structure Run where
  trace : List Event
  status : Status
  deriving DecidableEq, Repr

/-! ## Formatting -/

/-- Go `fmt.Sprintf` restricted to what the program uses: the verb `%s` takes
the next string operand (`%!s(MISSING)` when none is left), `%%` is a percent
sign, every other character is copied. -/
def formatVerbs : List Char → List String → List Char
  | [], _ => []
  | [c], _ => [c]
  | c :: d :: rest, args =>
    if c = '%' ∧ d = 's' then
      match args with
      | a :: args => a.data ++ formatVerbs rest args
      | [] => "%!s(MISSING)".data ++ formatVerbs rest []
    else if c = '%' ∧ d = '%' then '%' :: formatVerbs rest args
    else c :: formatVerbs (d :: rest) args

/-- Go `fmt.Sprintf(format, args...)` on string operands. -/
def Sprintf (format : String) (args : List String) : String :=
  ⟨formatVerbs format.data args⟩

/-! ## The program -/

/-- Lines 11-14 of `main`: the port is `WEB_PORT`, or `"8080"` when that is
the empty string. -/
def resolvePort (env : Environ) : String :=
  let port := Getenv env "WEB_PORT"
  if port = "" then "8080" else port

/-- The function `main` of `cmd/webserver/main.go`. -/
def main (w : World) : Run :=
  -- Get port from environment or use default
  let port := resolvePort w.environ
  -- Serve static files from web directory
  let fs := Handler.FileServer (Dir.mk "./web")
  let t := [Event.Handle "/" fs]
  let t := t ++ [Event.Printf (Sprintf "🌐 Web Server starting on http://localhost:%s" [port])]
  let t := t ++ [Event.Printf (Sprintf "📂 Serving files from ./web directory" [])]
  let t := t ++ [Event.Printf (Sprintf "🚀 Access the interface at: http://localhost:%s" [port])]
  let outcome := w.listenAndServe (":" ++ port)
  let t := t ++ [Event.ListenAndServe (":" ++ port) none outcome]
  match outcome.returned with
  | none => ⟨t, Status.serving⟩
  | some (some err) => ⟨t ++ [Event.Fatal err], Status.exited 1⟩
  | some none => ⟨t, Status.exited 0⟩

/-! ## Observations on a run -/

/-- Routes registered on the default mux, in order. -/
def Run.routes (r : Run) : List (String × Handler) :=
  r.trace.filterMap fun
    | .Handle pattern handler => some (pattern, handler)
    | _ => none

/-- Messages handed to `log.Printf`, in order. -/
def Run.logLines (r : Run) : List String :=
  r.trace.filterMap fun
    | .Printf msg => some msg
    | _ => none

/-- Whether an event is a listen call, plain or TLS. -/
def Event.isListen : Event → Bool
  | .ListenAndServe _ _ _ => true
  | .ListenAndServeTLS _ _ _ _ _ => true
  | _ => false

/-- Whether an event is a TLS listen call. -/
def Event.isTLS : Event → Bool
  | .ListenAndServeTLS _ _ _ _ _ => true
  | _ => false

/-- Addresses of the listen calls, plain or TLS, in order. -/
def Run.listenAddrs (r : Run) : List String :=
  r.trace.filterMap fun
    | .ListenAndServe addr _ _ => some addr
    | .ListenAndServeTLS addr _ _ _ _ => some addr
    | _ => none

/-- Whether some listen call of the run bound its listener: without one no
connection is accepted and no request is served. -/
def Run.everBound (r : Run) : Bool :=
  r.trace.any fun
    | .ListenAndServe _ _ o => o.bound
    | .ListenAndServeTLS _ _ _ _ o => o.bound
    | _ => false

/-- Errors handed to `log.Fatal`, in order. -/
def Run.fatalErrors (r : Run) : List String :=
  r.trace.filterMap fun
    | .Fatal err => some err
    | _ => none

/-- Host part of a listen address `host:port`: the text before the first
colon. -/
def hostPart (addr : String) : String :=
  ⟨addr.data.takeWhile (· ≠ ':')⟩

/-- Calls `main` makes before the listen call, for a given port. -/
def startup (port : String) : List Event :=
  [Event.Handle "/" (Handler.FileServer (Dir.mk "./web")),
   Event.Printf ("🌐 Web Server starting on http://localhost:" ++ port),
   Event.Printf "📂 Serving files from ./web directory",
   Event.Printf ("🚀 Access the interface at: http://localhost:" ++ port)]

/-- The listen call of `main`, for a given port and the outcome of the call. -/
def listenCall (port : String) (outcome : ListenOutcome) : Event :=
  Event.ListenAndServe (":" ++ port) none outcome

/-! ## Lemmas on the building blocks -/

theorem Getenv_unset (env : Environ) (key : String) (h : env key = none) :
    Getenv env key = "" := by
  simp [Getenv, h]

theorem Getenv_set (env : Environ) (key v : String) (h : env key = some v) :
    Getenv env key = v := by
  simp [Getenv, h]

theorem resolvePort_default (env : Environ)
    (h : env "WEB_PORT" = none ∨ env "WEB_PORT" = some "") :
    resolvePort env = "8080" := by
  rcases h with h | h <;> simp [resolvePort, Getenv, h]

theorem resolvePort_set (env : Environ) (v : String) (h : env "WEB_PORT" = some v)
    (hv : v ≠ "") : resolvePort env = v := by
  simp [resolvePort, Getenv, h, hv]

theorem formatVerbs_of_not_mem :
    ∀ (s : List Char) (args : List String), '%' ∉ s → formatVerbs s args = s
  | [], _, _ => by simp [formatVerbs]
  | [_], _, _ => by simp [formatVerbs]
  | c :: d :: rest, args, h => by
    have hc : c ≠ '%' := fun e => h (by simp [e])
    have ht : '%' ∉ d :: rest := fun m => h (List.mem_cons_of_mem _ m)
    simp [formatVerbs, hc, formatVerbs_of_not_mem (d :: rest) args ht]

theorem formatVerbs_append_s (a : String) :
    ∀ (pre : List Char), '%' ∉ pre → formatVerbs (pre ++ ['%', 's']) [a] = pre ++ a.data
  | [], _ => by simp [formatVerbs]
  | c :: rest, h => by
    have hc : c ≠ '%' := fun e => h (by simp [e])
    have ht : '%' ∉ rest := fun m => h (List.mem_cons_of_mem _ m)
    have ih := formatVerbs_append_s a rest ht
    cases rest with
    | nil => simp [formatVerbs, hc]
    | cons d rest => simpa [formatVerbs, hc] using ih

theorem Sprintf_plain (format : String) (h : '%' ∉ format.data) :
    Sprintf format [] = format := by
  simp [Sprintf, formatVerbs_of_not_mem _ _ h]

theorem Sprintf_trailing_s (lead format a : String) (h : '%' ∉ lead.data)
    (hf : format.data = lead.data ++ ['%', 's']) :
    Sprintf format [a] = lead ++ a := by
  apply String.ext
  simp [Sprintf, hf, formatVerbs_append_s a _ h]

theorem Sprintf_starting (port : String) :
    Sprintf "🌐 Web Server starting on http://localhost:%s" [port]
      = "🌐 Web Server starting on http://localhost:" ++ port :=
  Sprintf_trailing_s _ _ _ (by decide) (by decide)

theorem Sprintf_serving :
    Sprintf "📂 Serving files from ./web directory" []
      = "📂 Serving files from ./web directory" :=
  Sprintf_plain _ (by decide)

theorem Sprintf_access (port : String) :
    Sprintf "🚀 Access the interface at: http://localhost:%s" [port]
      = "🚀 Access the interface at: http://localhost:" ++ port :=
  Sprintf_trailing_s _ _ _ (by decide) (by decide)

theorem main_trace_cases (w : World) :
    (main w).trace
      = startup (resolvePort w.environ)
          ++ listenCall (resolvePort w.environ)
              (w.listenAndServe (":" ++ resolvePort w.environ))
          :: (match (w.listenAndServe (":" ++ resolvePort w.environ)).returned with
              | some (some err) => [Event.Fatal err]
              | _ => []) := by
  simp only [main, Sprintf_starting, Sprintf_serving, Sprintf_access, startup, listenCall]
  cases h : (w.listenAndServe (":" ++ resolvePort w.environ)).returned with
  | none => simp
  | some e => cases e <;> simp

theorem main_status_cases (w : World) :
    (main w).status
      = (match (w.listenAndServe (":" ++ resolvePort w.environ)).returned with
          | none => Status.serving
          | some (some _) => Status.exited 1
          | some none => Status.exited 0) := by
  simp only [main]
  cases h : (w.listenAndServe (":" ++ resolvePort w.environ)).returned with
  | none => simp
  | some e => cases e <;> simp

theorem main_listenAddrs (w : World) :
    (main w).listenAddrs = [":" ++ resolvePort w.environ] := by
  rw [Run.listenAddrs, main_trace_cases]
  cases h : (w.listenAndServe (":" ++ resolvePort w.environ)).returned with
  | none => simp [startup, listenCall]
  | some e => cases e <;> simp [startup, listenCall]

theorem main_logLines (w : World) :
    (main w).logLines
      = ["🌐 Web Server starting on http://localhost:" ++ resolvePort w.environ,
         "📂 Serving files from ./web directory",
         "🚀 Access the interface at: http://localhost:" ++ resolvePort w.environ] := by
  rw [Run.logLines, main_trace_cases]
  cases h : (w.listenAndServe (":" ++ resolvePort w.environ)).returned with
  | none => simp [startup, listenCall]
  | some e => cases e <;> simp [startup, listenCall]

theorem main_routes (w : World) :
    (main w).routes = [("/", Handler.FileServer (Dir.mk "./web"))] := by
  rw [Run.routes, main_trace_cases]
  cases h : (w.listenAndServe (":" ++ resolvePort w.environ)).returned with
  | none => simp [startup, listenCall]
  | some e => cases e <;> simp [startup, listenCall]

theorem main_everBound (w : World) :
    (main w).everBound = (w.listenAndServe (":" ++ resolvePort w.environ)).bound := by
  rw [Run.everBound, main_trace_cases]
  cases h : (w.listenAndServe (":" ++ resolvePort w.environ)).returned with
  | none => simp [startup, listenCall]
  | some e => cases e <;> simp [startup, listenCall]

theorem main_congr (w v : World) (hp : resolvePort w.environ = resolvePort v.environ)
    (hl : w.listenAndServe = v.listenAndServe) : main w = main v := by
  simp only [main, hp, hl]

/-- When the listen call returns `nil`, `main` returns and the process ends
with status 0. -/
theorem main_returned_nil (w : World)
    (h : (w.listenAndServe (":" ++ resolvePort w.environ)).returned = some none) :
    (main w).status = Status.exited 0 := by
  rw [main_status_cases, h]

/-! ## The claims -/

/-- C1: in every environment where `WEB_PORT` is unset or set to the empty
string the resolved port is exactly `"8080"`, the only listen call of `main`
is on `":8080"`, and the run is the run of the empty environment: unset and
empty cannot be told apart. -/
theorem port_default (w : World)
    (h : w.environ "WEB_PORT" = none ∨ w.environ "WEB_PORT" = some "") :
    resolvePort w.environ = "8080"
    ∧ (main w).listenAddrs = [":8080"]
    ∧ main w = main ⟨fun _ => none, w.listenAndServe⟩ := by
  have hp := resolvePort_default w.environ h
  refine ⟨hp, ?_, ?_⟩
  · rw [main_listenAddrs, hp]; rfl
  · refine main_congr w ⟨fun _ => none, w.listenAndServe⟩ ?_ rfl
    rw [hp]
    exact (resolvePort_default _ (Or.inl rfl)).symm

theorem port_default_witness :
    resolvePort (fun k => if k = "WEB_PORT" then some "" else none) = "8080"
    ∧ (main ⟨fun k => if k = "WEB_PORT" then some "" else none,
          fun _ => ListenOutcome.serving⟩).listenAddrs = [":8080"]
    ∧ main ⟨fun k => if k = "WEB_PORT" then some "" else none, fun _ => ListenOutcome.serving⟩
        = main ⟨fun _ => none, fun _ => ListenOutcome.serving⟩ :=
  port_default ⟨fun k => if k = "WEB_PORT" then some "" else none,
    fun _ => ListenOutcome.serving⟩ (Or.inr (by decide))

/-- C2: for every non-empty value `v` of `WEB_PORT`, whatever its characters,
the resolved port is exactly `v`, and the only listen call of `main` is on
the address made of a colon followed by the characters of `v`, unchanged. -/
theorem port_passthrough (w : World) (v : String)
    (h : w.environ "WEB_PORT" = some v) (hv : v ≠ "") :
    resolvePort w.environ = v
    ∧ (main w).listenAddrs = [":" ++ v]
    ∧ (":" ++ v).data = ':' :: v.data := by
  have hp := resolvePort_set w.environ v h hv
  refine ⟨hp, ?_, ?_⟩
  · rw [main_listenAddrs, hp]
  · simp

theorem port_passthrough_witness :
    resolvePort (fun k => if k = "WEB_PORT" then some "9090" else none) = "9090"
    ∧ (main ⟨fun k => if k = "WEB_PORT" then some "9090" else none,
          fun _ => ListenOutcome.serving⟩).listenAddrs = [":" ++ "9090"]
    ∧ (":" ++ "9090").data = ':' :: "9090".data :=
  port_passthrough ⟨fun k => if k = "WEB_PORT" then some "9090" else none,
    fun _ => ListenOutcome.serving⟩ "9090" (by decide) (by decide)

/-- C3: in every environment, when the listen call returns an error, the run
of `main` is the startup calls, that one listen call, and `log.Fatal` on the
returned error; the process ends with exit status 1; there is exactly one
listen call, on the resolved port, so no retry and no fallback port; and when
the error is a bind failure no listener was ever bound, so no request is
served. -/
theorem bind_failure_fatal (w : World) (err : String)
    (h : (w.listenAndServe (":" ++ resolvePort w.environ)).returned = some (some err)) :
    (main w).trace
      = startup (resolvePort w.environ)
          ++ [listenCall (resolvePort w.environ)
                (w.listenAndServe (":" ++ resolvePort w.environ)),
              Event.Fatal err]
    ∧ (main w).status = Status.exited 1
    ∧ (main w).fatalErrors = [err]
    ∧ (main w).listenAddrs = [":" ++ resolvePort w.environ]
    ∧ ((main w).trace.filter Event.isListen).length = 1
    ∧ (w.listenAndServe (":" ++ resolvePort w.environ) = ListenOutcome.bindFailed err →
        (main w).everBound = false) := by
  have ht : (main w).trace
      = startup (resolvePort w.environ)
          ++ [listenCall (resolvePort w.environ)
                (w.listenAndServe (":" ++ resolvePort w.environ)),
              Event.Fatal err] := by
    rw [main_trace_cases, h]
  refine ⟨ht, ?_, ?_, main_listenAddrs w, ?_, ?_⟩
  · rw [main_status_cases, h]
  · rw [Run.fatalErrors, ht]; simp [startup, listenCall]
  · rw [ht]; simp [startup, listenCall, Event.isListen]
  · intro hb
    rw [main_everBound, hb]; rfl

theorem bind_failure_fatal_witness :
    (ListenOutcome.bindFailed "bind: address already in use").returned
        = some (some "bind: address already in use")
    ∧ (main ⟨fun _ => none,
          fun _ => ListenOutcome.bindFailed "bind: address already in use"⟩).status
        = Status.exited 1
    ∧ (main ⟨fun _ => none,
          fun _ => ListenOutcome.bindFailed "bind: address already in use"⟩).fatalErrors
        = ["bind: address already in use"] :=
  ⟨rfl,
   (bind_failure_fatal
      ⟨fun _ => none, fun _ => ListenOutcome.bindFailed "bind: address already in use"⟩
      "bind: address already in use" rfl).2.1,
   (bind_failure_fatal
      ⟨fun _ => none, fun _ => ListenOutcome.bindFailed "bind: address already in use"⟩
      "bind: address already in use" rfl).2.2.1⟩

/-- C4: in every environment the listen calls of `main` are one call of the
plain `http.ListenAndServe` (none of the TLS variant), with the default mux,
on the address made of a colon followed by the resolved port; the address
starts with the colon, so its host part is empty: nothing stands before the
first colon, and wherever else the address is cut at a colon the text before
the cut starts with a colon itself; the host part is the same in every
environment. -/
theorem listen_address (w : World) :
    (main w).trace.filter Event.isListen
      = [Event.ListenAndServe (":" ++ resolvePort w.environ) none
          (w.listenAndServe (":" ++ resolvePort w.environ))]
    ∧ (main w).trace.any Event.isTLS = false
    ∧ (main w).listenAddrs = [":" ++ resolvePort w.environ]
    ∧ (":" ++ resolvePort w.environ).data = ':' :: (resolvePort w.environ).data
    ∧ hostPart (":" ++ resolvePort w.environ) = ""
    ∧ (∀ host rest : List Char,
        (":" ++ resolvePort w.environ).data = host ++ ':' :: rest →
          host = [] ∨ host.head? = some ':')
    ∧ ∀ v : World, (main v).listenAddrs.map hostPart = (main w).listenAddrs.map hostPart := by
  have hh : ∀ p : String, hostPart (":" ++ p) = "" := by
    intro p
    apply String.ext
    simp [hostPart]
  refine ⟨?_, ?_, main_listenAddrs w, by simp, hh _, ?_, ?_⟩
  rotate_left 2
  · intro host rest hs
    cases host with
    | nil => exact Or.inl rfl
    | cons c host =>
      right
      have hd : (":" ++ resolvePort w.environ).data = ':' :: (resolvePort w.environ).data := by
        simp
      rw [hd] at hs
      simp only [List.cons_append, List.cons.injEq] at hs
      simp [← hs.1]
  · intro v
    simp [main_listenAddrs, hh]
  · rw [main_trace_cases]
    cases h : (w.listenAndServe (":" ++ resolvePort w.environ)).returned with
    | none => simp [startup, listenCall, Event.isListen]
    | some e => cases e <;> simp [startup, listenCall, Event.isListen]
  · rw [main_trace_cases]
    cases h : (w.listenAndServe (":" ++ resolvePort w.environ)).returned with
    | none => simp [startup, listenCall, Event.isTLS]
    | some e => cases e <;> simp [startup, listenCall, Event.isTLS]

/-- C5: in every environment `main` registers exactly one route, with pattern
`/` and a file server rooted at `./web` as its handler, and the registered
routes are the same in every environment. -/
theorem route_and_root_fixed (w : World) :
    (main w).routes = [("/", Handler.FileServer (Dir.mk "./web"))]
    ∧ ∀ v : World, (main v).routes = (main w).routes := by
  refine ⟨main_routes w, ?_⟩
  intro v
  rw [main_routes, main_routes]

/-- C7, as amended: `main` ends the process with status 0 exactly when the
listen call returns `nil`, the one case where the guard `err != nil` lets
`main` return; in every other case it never ends with status 0: when the call
never returns the process stays serving, and when the call returns an error
the last call of the run is `log.Fatal` on that error and the exit status
is 1.  So status 0 is excluded exactly for the listen calls that honour the
contract `net/http` documents. -/
theorem exit_zero_only_on_nil_return (w : World) :
    ((main w).status = Status.exited 0 ↔
        (w.listenAndServe (":" ++ resolvePort w.environ)).returned = some none)
    ∧ ((main w).status = Status.serving ↔
        (w.listenAndServe (":" ++ resolvePort w.environ)).returned = none)
    ∧ (∀ err, (w.listenAndServe (":" ++ resolvePort w.environ)).returned = some (some err) →
        (main w).status = Status.exited 1
        ∧ (main w).trace.getLast? = some (Event.Fatal err))
    ∧ ((main w).status = Status.serving ∨ (main w).status = Status.exited 1
        ∨ (main w).status = Status.exited 0)
    ∧ ((main w).status ≠ Status.exited 0 ↔
        (w.listenAndServe (":" ++ resolvePort w.environ)).honoursContract) := by
  unfold ListenOutcome.honoursContract
  rw [main_status_cases]
  refine ⟨?_, ?_, ?_, ?_, ?_⟩
  · cases hr : (w.listenAndServe (":" ++ resolvePort w.environ)).returned with
    | none => simp
    | some e => cases e <;> simp
  · cases hr : (w.listenAndServe (":" ++ resolvePort w.environ)).returned with
    | none => simp
    | some e => cases e <;> simp
  · intro err hr
    refine ⟨by rw [hr], ?_⟩
    rw [main_trace_cases, hr]
    simp [startup]
  · cases hr : (w.listenAndServe (":" ++ resolvePort w.environ)).returned with
    | none => simp
    | some e => cases e <;> simp
  · cases hr : (w.listenAndServe (":" ++ resolvePort w.environ)).returned with
    | none => simp
    | some e => cases e <;> simp

/-- C7 as stated fails: in the world where the listen call on `":8080"`
returns `nil`, `main` returns and the process ends with status 0 by itself,
so it is not true that no run of `main` ends with status 0. -/
theorem exit_zero_reached :
    (main ⟨fun _ => none, fun _ => ListenOutcome.stopped none⟩).status = Status.exited 0
    ∧ (main ⟨fun _ => none, fun _ => ListenOutcome.stopped none⟩).fatalErrors = []
    ∧ ¬ ∀ w : World, (main w).status ≠ Status.exited 0 := by
  have h0 : (main ⟨fun _ => none, fun _ => ListenOutcome.stopped none⟩).status
      = Status.exited 0 := main_returned_nil _ rfl
  refine ⟨h0, ?_, fun h => h _ h0⟩
  rw [Run.fatalErrors, main_trace_cases]
  simp [startup, listenCall, ListenOutcome.returned]

/-- C10: in every environment, and whatever the listen call then does, `main`
hands exactly three messages to `log.Printf`, in this order: the start line
with the resolved port, the served directory, the access line with the
resolved port; each message starts with its marker; and the three are the
calls just before the only listen call, which is the fifth call of the run. -/
theorem startup_logging (w : World) :
    (main w).logLines
      = ["🌐 Web Server starting on http://localhost:" ++ resolvePort w.environ,
         "📂 Serving files from ./web directory",
         "🚀 Access the interface at: http://localhost:" ++ resolvePort w.environ]
    ∧ (main w).trace.take 5
      = [Event.Handle "/" (Handler.FileServer (Dir.mk "./web")),
         Event.Printf ("🌐 Web Server starting on http://localhost:" ++ resolvePort w.environ),
         Event.Printf "📂 Serving files from ./web directory",
         Event.Printf ("🚀 Access the interface at: http://localhost:" ++ resolvePort w.environ),
         Event.ListenAndServe (":" ++ resolvePort w.environ) none
           (w.listenAndServe (":" ++ resolvePort w.environ))]
    ∧ ((main w).trace.filter Event.isListen).length = 1
    ∧ ("🌐 Web Server starting on http://localhost:" ++ resolvePort w.environ).data.head?
        = some '🌐'
    ∧ ("📂 Serving files from ./web directory").data.head? = some '📂'
    ∧ ("🚀 Access the interface at: http://localhost:" ++ resolvePort w.environ).data.head?
        = some '🚀' := by
  refine ⟨main_logLines w, ?_, ?_, ?_, by decide, ?_⟩
  · rw [main_trace_cases]
    simp [startup, listenCall]
  · rw [main_trace_cases]
    cases h : (w.listenAndServe (":" ++ resolvePort w.environ)).returned with
    | none => simp [startup, listenCall, Event.isListen]
    | some e => cases e <;> simp [startup, listenCall, Event.isListen]
  · rw [String.data_append]; rfl
  · rw [String.data_append]; rfl

end WebServer
